import Mathlib

/-!
Verification of the NexGen logistics warehouse-rebalancing core.

Tables are shallowly embedded as lists of records. The pandas pipeline in
`src/app.py` (`optimize_warehouse_inventory`) and `src/utils.py`
(`calculate_inventory_metrics`, `generate_rebalancing_suggestions`,
`get_surplus_warehouses`) is translated as follows:

- `groupby("product_category").size()` becomes counting rows per category;
- `groupby("product_category")["current_stock_units"].sum()` becomes the
  per-category stock sum;
- `pd.merge(..., how="outer").fillna(0)` becomes one status row per category
  in the union (deduplicated) of the two key sets, each missing side 0;
- the float constant `SURPLUS_THRESHOLD = 1.5` is embedded as the rational
  3 / 2 (exact, since 1.5 is exactly representable);
- the two config constants are passed as explicit parameters so that the
  "configurable" thresholds of the spec can be quantified; the default
  values from `src/config.py` are kept as named constants;
- a pandas dataframe carries a column-label list alongside its rows, because
  `generate_rebalancing_suggestions` only adds the `action` / `quantity`
  columns when at least one row survives the filter, and the app mutates the
  column labels (`df.columns = df.columns.str.lower()`) in place.
-/

namespace OFI

/-- An orders row; only `product_category` is used by the pipeline. -/
structure OrderRow where
  product_category : String
deriving DecidableEq

/-- A warehouse-inventory row, per the spec data model: category, location,
non-negative stock and reorder level. -/
structure WarehouseRow where
  product_category : String
  location : String
  current_stock_units : Nat
  reorder_level : Nat
deriving DecidableEq

/-- The constant `REBALANCE_THRESHOLD = 5` from `src/config.py`. -/
def REBALANCE_THRESHOLD : Int := 5

/-- The constant `SURPLUS_THRESHOLD = 1.5` from `src/config.py`, as an
exact rational. -/
def SURPLUS_THRESHOLD : ℚ := 3 / 2

/-- The pandas demand aggregate `orders_df.groupby("product_category").size()` evaluated at key `c`:
the number of order rows in category `c`. -/
def demandFor (orders : List OrderRow) (c : String) : Nat :=
  (orders.filter (fun o => o.product_category == c)).length

/-- The pandas stock aggregate of `warehouse_df` grouped by category,
evaluated at key `c`: total stock held in category `c`. -/
def stockFor (inv : List WarehouseRow) (c : String) : Nat :=
  ((inv.filter (fun w => w.product_category == c)).map
    (fun w => w.current_stock_units)).sum

/-- A row of the Inventory Status table built in
`optimize_warehouse_inventory` (`src/app.py` lines 118-125). -/
structure StatusRow where
  product_category : String
  demand : Nat
  current_stock_units : Nat
  variance : Int
deriving DecidableEq

/-- The outer merge of the demand and inventory aggregates on
`product_category`, with `fillna(0)` and the variance column:
one row per category appearing in either source. -/
def inventoryStatus (orders : List OrderRow) (inv : List WarehouseRow) :
    List StatusRow :=
  ((orders.map (fun o => o.product_category) ++
    inv.map (fun w => w.product_category)).dedup).map
    (fun c =>
      { product_category := c
        demand := demandFor orders c
        current_stock_units := stockFor inv c
        variance := (stockFor inv c : Int) - (demandFor orders c : Int) })

/-- A row of the Rebalance Suggestions table: a status row extended with the
`action` and `quantity` columns added by `generate_rebalancing_suggestions`. -/
structure SuggestionRow where
  product_category : String
  demand : Nat
  current_stock_units : Nat
  variance : Int
  action : String
  quantity : Int
deriving DecidableEq

/-- The column assignment in `generate_rebalancing_suggestions`
(`src/utils.py` lines 79-83): `action` is the string
`"Increase Stock"` when variance is negative and `"Reduce Stock"`
otherwise, and `quantity` is `variance.abs()`. -/
def enrich (r : StatusRow) : SuggestionRow :=
  { product_category := r.product_category
    demand := r.demand
    current_stock_units := r.current_stock_units
    variance := r.variance
    action := if r.variance < 0 then "Increase Stock" else "Reduce Stock"
    quantity := |r.variance| }

/-- The function `generate_rebalancing_suggestions` (`src/utils.py` lines 63-85): keep
the status rows with `variance.abs() > REBALANCE_THRESHOLD` and, on the
surviving rows, add the `action` and `quantity` columns. The threshold is
the explicit parameter `T` (the code reads the config constant). -/
def generate_rebalancing_suggestions (T : Int) (status : List StatusRow) :
    List SuggestionRow :=
  ((status.filter (fun r => decide (T < |r.variance|))).map enrich)

/-- The column labels of an Inventory Status dataframe. -/
def statusColumns : List String :=
  ["product_category", "demand", "current_stock_units", "variance"]

/-- The column labels of the dataframe returned by
`generate_rebalancing_suggestions`: the filtered copy keeps the status
columns, and `action` / `quantity` are appended only inside the
`if not rebalance.empty` branch (`src/utils.py` lines 78-83). -/
def rebalanceColumns (T : Int) (status : List StatusRow) : List String :=
  if (status.filter (fun r => decide (T < |r.variance|))).isEmpty then
    statusColumns
  else
    statusColumns ++ ["action", "quantity"]

/-- The function `get_surplus_warehouses` (`src/utils.py` lines 87-103): the warehouse
rows of the requested category whose stock strictly exceeds
`reorder_level * SURPLUS_THRESHOLD`. The threshold is the explicit
parameter `S` (the code reads the config constant). -/
def get_surplus_warehouses (S : ℚ) (inv : List WarehouseRow)
    (category : String) : List WarehouseRow :=
  inv.filter (fun w =>
    (w.product_category == category) &&
    decide ((w.reorder_level : ℚ) * S < (w.current_stock_units : ℚ)))

/-- The metrics dictionary built by `calculate_inventory_metrics`
(`src/utils.py` lines 42-61). -/
structure InventoryMetrics where
  total_products : Nat
  total_warehouses : Nat
  total_inventory : Nat
  avg_stock_level : ℚ
  low_stock_items : Nat
deriving DecidableEq

/-- The function `calculate_inventory_metrics`: `{}` (here `none`) on an empty table,
otherwise the five summary statistics. The float mean is embedded as an
exact rational. -/
def calculate_inventory_metrics (inv : List WarehouseRow) :
    Option InventoryMetrics :=
  if inv.isEmpty then none
  else some
    { total_products := ((inv.map (fun w => w.product_category)).dedup).length
      total_warehouses := ((inv.map (fun w => w.location)).dedup).length
      total_inventory := (inv.map (fun w => w.current_stock_units)).sum
      avg_stock_level :=
        ((inv.map (fun w => w.current_stock_units)).sum : ℚ) /
          (inv.length : ℚ)
      low_stock_items :=
        (inv.filter
          (fun w => decide (w.current_stock_units < w.reorder_level))).length }

/-- An orders dataframe: column labels plus rows. -/
structure OrdersTable where
  columns : List String
  rows : List OrderRow
deriving DecidableEq

/-- A warehouse-inventory dataframe: column labels plus rows. -/
structure WarehouseTable where
  columns : List String
  rows : List WarehouseRow
deriving DecidableEq

/-- Everything `optimize_warehouse_inventory` derives and displays. -/
structure AnalysisOutputs where
  metrics : Option InventoryMetrics
  status : List StatusRow
  suggestions : List SuggestionRow
  suggestionColumns : List String
  surplusByCategory : List (String × List WarehouseRow)
deriving DecidableEq

/-- The analysis body of `optimize_warehouse_inventory` (`src/app.py`
lines 104-160): lowercase the column labels of both tables in place (returned
here as the updated state), compute the metrics, build the Inventory
Status table, generate the rebalancing suggestions, and look up surplus
warehouses for each `"Increase Stock"` suggestion. -/
def optimize_warehouse_inventory (T : Int) (S : ℚ)
    (orders : OrdersTable) (warehouse : WarehouseTable) :
    (OrdersTable × WarehouseTable) × AnalysisOutputs :=
  let orders2 : OrdersTable :=
    { orders with columns := orders.columns.map String.toLower }
  let warehouse2 : WarehouseTable :=
    { warehouse with columns := warehouse.columns.map String.toLower }
  let status := inventoryStatus orders2.rows warehouse2.rows
  let sugg := generate_rebalancing_suggestions T status
  ((orders2, warehouse2),
    { metrics := calculate_inventory_metrics warehouse2.rows
      status := status
      suggestions := sugg
      suggestionColumns := rebalanceColumns T status
      surplusByCategory := sugg.filterMap (fun s =>
        if s.action == "Increase Stock" then
          some (s.product_category,
            get_surplus_warehouses S warehouse2.rows s.product_category)
        else none) })

/-- Concrete rows used by the witness theorems: the spec scenario of §8. -/
def wr1 : WarehouseRow := ⟨"Electronics", "W1", 20, 5⟩

/-- Concrete status row used by the witness theorems: demand 10, stock 20. -/
def statusE : StatusRow := ⟨"Electronics", 10, 20, 10⟩

/-- Membership in the suggestions list: exactly the enrichments of status
rows whose absolute variance exceeds the threshold. -/
theorem mem_generate_rebalancing_suggestions {T : Int}
    {status : List StatusRow} {s : SuggestionRow} :
    s ∈ generate_rebalancing_suggestions T status ↔
      ∃ r, r ∈ status ∧ T < |r.variance| ∧ enrich r = s := by
  simp [generate_rebalancing_suggestions, List.mem_map, List.mem_filter,
    and_assoc]

/-- Adding the action and quantity columns keeps the four status fields, so
no two distinct status rows collapse. -/
theorem enrich_injective {r₁ r₂ : StatusRow} (h : enrich r₁ = enrich r₂) :
    r₁ = r₂ := by
  cases r₁; cases r₂
  simp only [enrich, SuggestionRow.mk.injEq] at h
  obtain ⟨h1, h2, h3, h4, -, -⟩ := h
  subst h1; subst h2; subst h3; subst h4
  rfl

/-- A category with no order row has demand aggregate 0. -/
theorem demandFor_eq_zero {orders : List OrderRow} {c : String}
    (h : c ∉ orders.map (fun o => o.product_category)) :
    demandFor orders c = 0 := by
  unfold demandFor
  rw [List.length_eq_zero, List.filter_eq_nil_iff]
  intro o ho
  simp only [beq_iff_eq]
  intro hc
  exact h (List.mem_map.mpr ⟨o, ho, hc⟩)

/-- A category with no warehouse row has stock aggregate 0. -/
theorem stockFor_eq_zero {inv : List WarehouseRow} {c : String}
    (h : c ∉ inv.map (fun w => w.product_category)) :
    stockFor inv c = 0 := by
  unfold stockFor
  have hnil : inv.filter (fun w => w.product_category == c) = [] := by
    rw [List.filter_eq_nil_iff]
    intro w hw
    simp only [beq_iff_eq]
    intro hc
    exact h (List.mem_map.mpr ⟨w, hw, hc⟩)
  rw [hnil]
  rfl

/-- C1: any category appearing in the orders table or the warehouse table
gets a row of the outer join; the side it is absent from is filled with 0,
and its variance is stock minus demand. -/
theorem outer_join_totality (orders : List OrderRow)
    (inv : List WarehouseRow) (c : String)
    (hc : c ∈ orders.map (fun o => o.product_category) ∨
          c ∈ inv.map (fun w => w.product_category)) :
    ∃ r ∈ inventoryStatus orders inv,
      r.product_category = c ∧
      (c ∉ orders.map (fun o => o.product_category) → r.demand = 0) ∧
      (c ∉ inv.map (fun w => w.product_category) →
        r.current_stock_units = 0) ∧
      r.variance = (r.current_stock_units : Int) - (r.demand : Int) := by
  refine ⟨_, List.mem_map.mpr ⟨c, ?_, rfl⟩, rfl, ?_, ?_, rfl⟩
  · rw [List.mem_dedup, List.mem_append]
    exact hc
  · intro h
    exact demandFor_eq_zero h
  · intro h
    exact stockFor_eq_zero h

/-- Witness for C1 at a category present only in the orders table. -/
theorem outer_join_totality_witness :
    ("A" ∈ ([⟨"A"⟩] : List OrderRow).map (fun o => o.product_category) ∨
     "A" ∈ ([] : List WarehouseRow).map (fun w => w.product_category)) ∧
    ∃ r ∈ inventoryStatus [⟨"A"⟩] [],
      r.product_category = "A" ∧
      ("A" ∉ ([⟨"A"⟩] : List OrderRow).map (fun o => o.product_category) →
        r.demand = 0) ∧
      ("A" ∉ ([] : List WarehouseRow).map (fun w => w.product_category) →
        r.current_stock_units = 0) ∧
      r.variance = (r.current_stock_units : Int) - (r.demand : Int) :=
  ⟨Or.inl (by decide), outer_join_totality [⟨"A"⟩] [] "A" (Or.inl (by decide))⟩

/-- C2: on every suggestion row generated under a non-negative threshold,
the action is the string "Increase Stock" exactly when the variance is
negative and "Reduce Stock" exactly when it is positive. -/
theorem action_sign_characterization (T : Int) (hT : 0 ≤ T)
    (status : List StatusRow) (s : SuggestionRow)
    (hs : s ∈ generate_rebalancing_suggestions T status) :
    (s.action = "Increase Stock" ↔ s.variance < 0) ∧
    (s.action = "Reduce Stock" ↔ 0 < s.variance) := by
  obtain ⟨r, hr, hv, rfl⟩ := mem_generate_rebalancing_suggestions.mp hs
  have hne : r.variance ≠ 0 := by
    intro h0
    rw [h0] at hv
    simp at hv
    omega
  have hvar : (enrich r).variance = r.variance := rfl
  rcases lt_or_gt_of_ne hne with hneg | hpos
  · have ha : (enrich r).action = "Increase Stock" := by
      simp [enrich, hneg]
    rw [ha, hvar]
    refine ⟨by simp [hneg], ?_, ?_⟩
    · intro h
      exact absurd h (by decide)
    · intro h
      exact absurd h (by omega)
  · have ha : (enrich r).action = "Reduce Stock" := by
      simp [enrich, not_lt_of_gt hpos]
    rw [ha, hvar]
    refine ⟨⟨?_, ?_⟩, by simp [hpos]⟩
    · intro h
      exact absurd h (by decide)
    · intro h
      exact absurd h (by omega)

/-- Witness for C2 at the spec scenario row (variance 10, threshold 5). -/
theorem action_sign_characterization_witness :
    enrich statusE ∈ generate_rebalancing_suggestions 5 [statusE] ∧
    (((enrich statusE).action = "Increase Stock" ↔
        (enrich statusE).variance < 0) ∧
     ((enrich statusE).action = "Reduce Stock" ↔
        0 < (enrich statusE).variance)) :=
  ⟨by decide,
   action_sign_characterization 5 (by decide) [statusE] (enrich statusE)
     (by decide)⟩

/-- C3: every generated suggestion row has quantity equal to the absolute
value of its variance, which is a non-negative integer. -/
theorem quantity_is_abs_variance (T : Int) (status : List StatusRow)
    (s : SuggestionRow) (hs : s ∈ generate_rebalancing_suggestions T status) :
    s.quantity = |s.variance| ∧ 0 ≤ s.quantity := by
  obtain ⟨r, hr, hv, rfl⟩ := mem_generate_rebalancing_suggestions.mp hs
  exact ⟨rfl, abs_nonneg _⟩

/-- Witness for C3 at the spec scenario row. -/
theorem quantity_is_abs_variance_witness :
    enrich statusE ∈ generate_rebalancing_suggestions 5 [statusE] ∧
    ((enrich statusE).quantity = |(enrich statusE).variance| ∧
     0 ≤ (enrich statusE).quantity) :=
  ⟨by decide,
   quantity_is_abs_variance 5 [statusE] (enrich statusE) (by decide)⟩

/-- C4: a status row enters the suggestions exactly when its absolute
variance strictly exceeds the threshold (whose default is 5), and a row
whose absolute variance equals the threshold is excluded. -/
theorem threshold_filter_characterization (T : Int) (status : List StatusRow)
    (r : StatusRow) (hr : r ∈ status) :
    REBALANCE_THRESHOLD = 5 ∧
    (enrich r ∈ generate_rebalancing_suggestions T status ↔
      T < |r.variance|) ∧
    (|r.variance| = T →
      enrich r ∉ generate_rebalancing_suggestions T status) := by
  have hiff : enrich r ∈ generate_rebalancing_suggestions T status ↔
      T < |r.variance| := by
    constructor
    · intro h
      obtain ⟨r', hr', hv', he⟩ := mem_generate_rebalancing_suggestions.mp h
      rwa [enrich_injective he] at hv'
    · intro h
      exact mem_generate_rebalancing_suggestions.mpr ⟨r, hr, h, rfl⟩
  refine ⟨rfl, hiff, ?_⟩
  intro heq hmem
  rw [heq] at hiff
  exact lt_irrefl T (hiff.mp hmem)

/-- Witness for C4 at the spec scenario row and the default threshold. -/
theorem threshold_filter_characterization_witness :
    statusE ∈ [statusE] ∧
    (REBALANCE_THRESHOLD = 5 ∧
     (enrich statusE ∈ generate_rebalancing_suggestions 5 [statusE] ↔
       (5 : Int) < |statusE.variance|) ∧
     (|statusE.variance| = 5 →
       enrich statusE ∉ generate_rebalancing_suggestions 5 [statusE])) :=
  ⟨by decide, threshold_filter_characterization 5 [statusE] statusE (by decide)⟩

/-- C5: the surplus lookup returns exactly the rows of the requested
category whose stock strictly exceeds reorder level times the surplus
threshold (whose default is 3 / 2); a row at exactly the boundary is
excluded, and rows of other categories are never returned. -/
theorem surplus_filter_characterization (S : ℚ) (inv : List WarehouseRow)
    (category : String) (w : WarehouseRow) :
    SURPLUS_THRESHOLD = 3 / 2 ∧
    (w ∈ get_surplus_warehouses S inv category ↔
      w ∈ inv ∧ w.product_category = category ∧
        (w.reorder_level : ℚ) * S < (w.current_stock_units : ℚ)) ∧
    ((w.current_stock_units : ℚ) = (w.reorder_level : ℚ) * S →
      w ∉ get_surplus_warehouses S inv category) ∧
    (w.product_category ≠ category →
      w ∉ get_surplus_warehouses S inv category) := by
  have hmem : w ∈ get_surplus_warehouses S inv category ↔
      w ∈ inv ∧ w.product_category = category ∧
        (w.reorder_level : ℚ) * S < (w.current_stock_units : ℚ) := by
    simp [get_surplus_warehouses, List.mem_filter]
  refine ⟨rfl, hmem, ?_, ?_⟩
  · intro heq hw
    have hlt := (hmem.mp hw).2.2
    rw [heq] at hlt
    exact lt_irrefl _ hlt
  · intro hne hw
    exact hne (hmem.mp hw).2.1

/-- Witness for C5: the spec scenario warehouse qualifies since
20 > 5 * (3 / 2). -/
theorem surplus_filter_characterization_witness :
    wr1 ∈ get_surplus_warehouses (3 / 2) [wr1] "Electronics" :=
  ((surplus_filter_characterization (3 / 2) [wr1] "Electronics" wr1).2.1).mpr
    ⟨by decide, rfl, by norm_num [wr1]⟩

/-- C6: on a non-empty warehouse table the metrics are the distinct category
count, the distinct location count, the stock sum, the stock mean, and the
count of rows strictly below their reorder level. -/
theorem metrics_characterization (inv : List WarehouseRow) (h : inv ≠ []) :
    calculate_inventory_metrics inv = some
      { total_products :=
          ((inv.map (fun w => w.product_category)).toFinset).card
        total_warehouses := ((inv.map (fun w => w.location)).toFinset).card
        total_inventory := (inv.map (fun w => w.current_stock_units)).sum
        avg_stock_level :=
          ((inv.map (fun w => w.current_stock_units)).sum : ℚ) /
            (inv.length : ℚ)
        low_stock_items :=
          inv.countP
            (fun w => decide (w.current_stock_units < w.reorder_level)) } := by
  have hne : inv.isEmpty = false := by
    cases inv with
    | nil => exact absurd rfl h
    | cons a l => rfl
  unfold calculate_inventory_metrics
  rw [hne]
  simp only [Bool.false_eq_true, if_false, Option.some.injEq,
    InventoryMetrics.mk.injEq]
  exact ⟨(List.card_toFinset _).symm, (List.card_toFinset _).symm, trivial,
    trivial, (List.countP_eq_length_filter _ _).symm⟩

/-- Witness for C6 at the spec scenario warehouse table. -/
theorem metrics_characterization_witness :
    ([wr1] : List WarehouseRow) ≠ [] ∧
    calculate_inventory_metrics [wr1] = some
      { total_products :=
          (([wr1].map (fun w => w.product_category)).toFinset).card
        total_warehouses := (([wr1].map (fun w => w.location)).toFinset).card
        total_inventory := ([wr1].map (fun w => w.current_stock_units)).sum
        avg_stock_level :=
          (([wr1].map (fun w => w.current_stock_units)).sum : ℚ) /
            (([wr1] : List WarehouseRow).length : ℚ)
        low_stock_items :=
          [wr1].countP
            (fun w => decide (w.current_stock_units < w.reorder_level)) } :=
  ⟨by decide, metrics_characterization [wr1] (by decide)⟩

/-- C7: running the analysis a second time on the tables as the first run
left them reproduces the same Inventory Status and Rebalance Suggestions
tables: the only state update (lowercasing the column labels) never touches
the rows the Rebalancing Engine reads. -/
theorem rebalancing_engine_idempotent (T : Int) (S : ℚ)
    (orders : OrdersTable) (warehouse : WarehouseTable) :
    ((optimize_warehouse_inventory T S
        (optimize_warehouse_inventory T S orders warehouse).1.1
        (optimize_warehouse_inventory T S orders warehouse).1.2).2.status =
      (optimize_warehouse_inventory T S orders warehouse).2.status) ∧
    ((optimize_warehouse_inventory T S
        (optimize_warehouse_inventory T S orders warehouse).1.1
        (optimize_warehouse_inventory T S orders warehouse).1.2).2.suggestions
      = (optimize_warehouse_inventory T S orders warehouse).2.suggestions) :=
  ⟨rfl, rfl⟩

/-- C8: the metrics of an empty warehouse table are the empty result, and
when no status row's absolute variance exceeds the threshold the
suggestions table is empty, with no error in either case. -/
theorem empty_input_handling (T : Int) (status : List StatusRow)
    (h : ∀ r ∈ status, |r.variance| ≤ T) :
    calculate_inventory_metrics [] = none ∧
    generate_rebalancing_suggestions T status = [] := by
  refine ⟨rfl, ?_⟩
  unfold generate_rebalancing_suggestions
  rw [List.map_eq_nil_iff, List.filter_eq_nil_iff]
  intro r hr
  simp only [decide_eq_true_eq, not_lt]
  exact h r hr

/-- Witness for C8: a single balanced row (variance 1) under threshold 5. -/
theorem empty_input_handling_witness :
    (∀ r ∈ ([⟨"A", 1, 2, 1⟩] : List StatusRow), |r.variance| ≤ 5) ∧
    (calculate_inventory_metrics [] = none ∧
     generate_rebalancing_suggestions 5 [⟨"A", 1, 2, 1⟩] = []) :=
  ⟨by decide, empty_input_handling 5 [⟨"A", 1, 2, 1⟩] (by decide)⟩

/-- C9: on loaded tables (column labels already lowercase) the analysis
leaves the source tables unchanged, and its outputs depend only on the
rows of the source tables and the two thresholds. -/
theorem analysis_pure_no_mutation (T : Int) (S : ℚ)
    (orders o₂ : OrdersTable) (warehouse w₂ : WarehouseTable)
    (hO : orders.columns.map String.toLower = orders.columns)
    (hW : warehouse.columns.map String.toLower = warehouse.columns)
    (ho : o₂.rows = orders.rows) (hw : w₂.rows = warehouse.rows) :
    (optimize_warehouse_inventory T S orders warehouse).1 =
      (orders, warehouse) ∧
    (optimize_warehouse_inventory T S o₂ w₂).2 =
      (optimize_warehouse_inventory T S orders warehouse).2 := by
  constructor
  · unfold optimize_warehouse_inventory
    cases orders
    cases warehouse
    simp_all
  · unfold optimize_warehouse_inventory
    simp only [ho, hw]

/-- Witness for C9 at a loaded one-row table pair (the loader produces the
labels already lowercase; the label lists here are trivially so). -/
theorem analysis_pure_no_mutation_witness :
    ((⟨[], [⟨"A"⟩]⟩ : OrdersTable).columns.map String.toLower =
      (⟨[], [⟨"A"⟩]⟩ : OrdersTable).columns) ∧
    ((optimize_warehouse_inventory 5 (3 / 2)
        ⟨[], [⟨"A"⟩]⟩ ⟨[], [wr1]⟩).1 =
      (⟨[], [⟨"A"⟩]⟩, ⟨[], [wr1]⟩) ∧
     (optimize_warehouse_inventory 5 (3 / 2)
        ⟨["x"], [⟨"A"⟩]⟩ ⟨["y"], [wr1]⟩).2 =
      (optimize_warehouse_inventory 5 (3 / 2)
        ⟨[], [⟨"A"⟩]⟩ ⟨[], [wr1]⟩).2) :=
  ⟨rfl,
   analysis_pure_no_mutation 5 (3 / 2)
     ⟨[], [⟨"A"⟩]⟩ ⟨["x"], [⟨"A"⟩]⟩ ⟨[], [wr1]⟩ ⟨["y"], [wr1]⟩
     rfl rfl rfl rfl⟩

/-- C10: when no row passes the threshold filter, the returned dataframe
does not carry the action and quantity columns; they are present exactly
when at least one row passes. -/
theorem empty_result_lacks_action_columns (T : Int)
    (status : List StatusRow) :
    (generate_rebalancing_suggestions T status = [] →
      "action" ∉ rebalanceColumns T status ∧
      "quantity" ∉ rebalanceColumns T status) ∧
    (generate_rebalancing_suggestions T status ≠ [] →
      "action" ∈ rebalanceColumns T status ∧
      "quantity" ∈ rebalanceColumns T status) := by
  have hiff : generate_rebalancing_suggestions T status = [] ↔
      (status.filter (fun r => decide (T < |r.variance|))).isEmpty = true := by
    unfold generate_rebalancing_suggestions
    rw [List.map_eq_nil_iff, List.isEmpty_iff]
  constructor
  · intro h
    unfold rebalanceColumns
    rw [if_pos (hiff.mp h)]
    exact ⟨by decide, by decide⟩
  · intro h
    unfold rebalanceColumns
    rw [if_neg (fun hc => h (hiff.mpr hc))]
    exact ⟨by decide, by decide⟩

/-- Witness for C10: the empty status table lacks both columns; the spec
scenario table has both. -/
theorem empty_result_lacks_action_columns_witness :
    ("action" ∉ rebalanceColumns 5 [] ∧
     "quantity" ∉ rebalanceColumns 5 []) ∧
    ("action" ∈ rebalanceColumns 5 [statusE] ∧
     "quantity" ∈ rebalanceColumns 5 [statusE]) :=
  ⟨(empty_result_lacks_action_columns 5 []).1 rfl,
   (empty_result_lacks_action_columns 5 [statusE]).2 (by decide)⟩

end OFI
